import Mathlib

/-!
Verification of the MobiRent caching-proxy library (`src/mobirent_lib/src/lib.rs`).

The repository ships only the crate root `lib.rs`, which declares the modules
`model`, `proxy`, `remote`, `cache`, `telemetry`, `errors`, `traits` and
re-exports `Car`, `Fleet`, `FleetProxy`, `CacheManager`, `TelemetryLogger`,
`FleetError`, `FleetAccess`, `RemoteFleetAccess`; the module bodies are not in
the repository.  The definitions below are therefore modelled from the
specification (spec.md §§3–7) and are the authority for the claims, which is
recorded in each doc comment.
-/

set_option autoImplicit false

namespace MobiRent

/-- Modelled from the spec: `Car` (§3, re-exported by `lib.rs` from the missing
module `model`): unique id, descriptive attributes (collaborator concern,
collapsed into one field), and a last-updated marker. -/
structure Car where
  id : Nat
  info : String
  last_updated : Nat
deriving DecidableEq, Repr

/-- Modelled from the spec: `Fleet` (§3, from the missing module `model`): a
collection of cars plus the time this snapshot was fetched. -/
structure Fleet where
  cars : List Car
  fetched_at : Nat
deriving DecidableEq, Repr

/-- Modelled from the spec: `FleetError` (§7, from the missing module
`errors`): the closed taxonomy of failure kinds. -/
inductive FleetError where
  | notFound
  | remoteUnavailable
  | timeout
  | cacheError
  | configError
deriving DecidableEq, Repr

/-- Modelled from the spec: the failure kinds the remote source can exhibit
(§4.1: `get_fleet` fails with `RemoteUnavailable` or `Timeout`, `get_car`
additionally with `NotFound`). -/
inductive RemoteFailure where
  | notFound
  | remoteUnavailable
  | timeout
deriving DecidableEq, Repr

/-- Injection of remote failure kinds into the unified taxonomy; the kind is
preserved end-to-end (§4.6). -/
def RemoteFailure.toFleetError : RemoteFailure → FleetError
  | .notFound => .notFound
  | .remoteUnavailable => .remoteUnavailable
  | .timeout => .timeout

/-- Modelled from the spec: resource keys of the Cache Manager (§4.3: "whole
fleet" is one key; "car by id" is a family of keys). -/
inductive Key where
  | fleet
  | car (id : Nat)
deriving DecidableEq, Repr

/-- Modelled from the spec: a cached value is a Fleet or a Car (§3, Cache
Entry "wraps a cached value (Fleet or Car)"). -/
inductive CachedValue where
  | fleet (f : Fleet)
  | car (c : Car)
deriving DecidableEq, Repr

/-- Modelled from the spec: a Cache Entry (§3): the cached value together with
the time it was stored. -/
structure Entry (ν : Type) where
  value : ν
  stored_at : Nat
deriving DecidableEq, Repr

/-- First entry stored under a key, scanning front to back (the front is the
most recent `put`). -/
def lookupEntry {κ ν : Type} [DecidableEq κ] : List (κ × Entry ν) → κ → Option (Entry ν)
  | [], _ => none
  | p :: rest, k => if p.1 = k then some p.2 else lookupEntry rest k

/-- Removes every entry stored under a key. -/
def eraseKey {κ ν : Type} [DecidableEq κ] : List (κ × Entry ν) → κ → List (κ × Entry ν)
  | [], _ => []
  | p :: rest, k => if p.1 = k then eraseKey rest k else p :: eraseKey rest k

/-- Modelled from the spec: `CacheManager` (§4.3, from the missing module
`cache`): typed entries keyed by resource identity, with a TTL fixed at
construction.  The clock is injectable, so every operation takes the current
time explicitly. -/
structure CacheManager (κ ν : Type) where
  ttl : Nat
  store : List (κ × Entry ν)

/-- Modelled from the spec: Cache Manager construction (§4.3, §6, §7): TTL is
a configuration option; a negative or missing TTL is a `ConfigError`,
rejected at construction time. -/
def CacheManager.new (κ ν : Type) [DecidableEq κ] (ttl? : Option Int) :
    Except FleetError (CacheManager κ ν) :=
  match ttl? with
  | none => .error .configError
  | some t => if t < 0 then .error .configError else .ok ⟨t.toNat, []⟩

/-- Modelled from the spec: `get(key)` (§4.3): returns nothing if absent or
stale; the TTL check (`now - stored_at < ttl`, §3) happens inside `get`. -/
def CacheManager.get {κ ν : Type} [DecidableEq κ] (c : CacheManager κ ν)
    (now : Nat) (k : κ) : Option (Entry ν) :=
  match lookupEntry c.store k with
  | some e => if now - e.stored_at < c.ttl then some e else none
  | none => none

/-- Modelled from the spec: `put(key, value)` (§4.3): stores the value with
the current time as `stored_at`, unconditionally overwriting any prior entry
for that key. -/
def CacheManager.put {κ ν : Type} [DecidableEq κ] (c : CacheManager κ ν)
    (now : Nat) (k : κ) (v : ν) : CacheManager κ ν :=
  { c with store := (k, ⟨v, now⟩) :: eraseKey c.store k }

/-- Modelled from the spec: `invalidate(key)` (§4.3): explicit eviction of one
key. -/
def CacheManager.invalidate {κ ν : Type} [DecidableEq κ] (c : CacheManager κ ν)
    (k : κ) : CacheManager κ ν :=
  { c with store := eraseKey c.store k }

/-- Modelled from the spec: `invalidate_all()` (§4.3): explicit eviction of
everything. -/
def CacheManager.invalidate_all {κ ν : Type} (c : CacheManager κ ν) :
    CacheManager κ ν :=
  { c with store := [] }

/- Helper lemmas about the association-list store. -/

theorem lookupEntry_eraseKey_ne {κ ν : Type} [DecidableEq κ]
    (l : List (κ × Entry ν)) (k k' : κ) (h : k' ≠ k) :
    lookupEntry (eraseKey l k) k' = lookupEntry l k' := by
  induction l with
  | nil => rfl
  | cons p rest ih =>
    by_cases hp : p.1 = k
    · have hk' : ¬p.1 = k' := fun he => h (he.symm.trans hp)
      simp [eraseKey, hp, lookupEntry, hk', ih, Ne.symm h]
    · simp [eraseKey, hp, lookupEntry, ih]

theorem get_put_same {κ ν : Type} [DecidableEq κ] (c : CacheManager κ ν)
    (k : κ) (v : ν) (tPut tGet : Nat) (h : tGet - tPut < c.ttl) :
    (c.put tPut k v).get tGet k = some ⟨v, tPut⟩ := by
  simp [CacheManager.put, CacheManager.get, lookupEntry, h]

/-- C1: cache round-trip — `put(k, v)` followed by `get(k)` with elapsed time
strictly below the TTL returns an entry whose value is `v`. -/
theorem C1_cache_round_trip {κ ν : Type} [DecidableEq κ]
    (c : CacheManager κ ν) (k : κ) (v : ν) (tPut tGet : Nat)
    (h : tGet - tPut < c.ttl) :
    ∃ e, (c.put tPut k v).get tGet k = some e ∧ e.value = v :=
  ⟨⟨v, tPut⟩, get_put_same c k v tPut tGet h, rfl⟩

/-- C1 witness: TTL 100, put at time 0, get at time 50 returns the value 7. -/
theorem C1_cache_round_trip_witness :
    (50 - 0 < (100 : Nat)) ∧
    ∃ e, ((⟨100, []⟩ : CacheManager Nat Nat).put 0 3 7).get 50 3 = some e ∧
      e.value = 7 :=
  ⟨by decide, C1_cache_round_trip ⟨100, []⟩ 3 7 0 50 (by decide)⟩

/-- C2: expiry / never-stale — `get` never returns an entry whose age reaches
the TTL, and when the stored entry's age is at least the TTL, `get` returns
`none`, regardless of prior hits. -/
theorem C2_expiry_never_stale {κ ν : Type} [DecidableEq κ]
    (c : CacheManager κ ν) (now : Nat) (k : κ) :
    (∀ e, c.get now k = some e → now - e.stored_at < c.ttl) ∧
    (∀ e, lookupEntry c.store k = some e → c.ttl ≤ now - e.stored_at →
      c.get now k = none) := by
  constructor
  · intro e he
    unfold CacheManager.get at he
    cases hl : lookupEntry c.store k with
    | none => simp [hl] at he
    | some e' =>
      simp only [hl] at he
      by_cases hf : now - e'.stored_at < c.ttl
      · simp only [if_pos hf, Option.some.injEq] at he
        exact he ▸ hf
      · simp [if_neg hf] at he
  · intro e hl hstale
    unfold CacheManager.get
    simp [hl, not_lt.mpr hstale]

/-- C2 witness: TTL 10, entry stored at time 0, `get` at time 20 returns
`none`. -/
theorem C2_expiry_never_stale_witness :
    (⟨10, [(0, ⟨5, 0⟩)]⟩ : CacheManager Nat Nat).get 20 0 = none :=
  (C2_expiry_never_stale ⟨10, [(0, ⟨5, 0⟩)]⟩ 20 0).2 ⟨5, 0⟩ (by decide)
    (by decide)

/-- C6: TTL of zero disables caching — every `get` on a cache whose TTL is
zero reports absent, regardless of any preceding `put`. -/
theorem C6_ttl_zero_disables {κ ν : Type} [DecidableEq κ]
    (c : CacheManager κ ν) (h : c.ttl = 0) (now : Nat) (k : κ) :
    c.get now k = none ∧ ∀ t v, (c.put t k v).get now k = none := by
  constructor
  · unfold CacheManager.get
    cases lookupEntry c.store k with
    | none => rfl
    | some e => simp [h]
  · intro t v
    unfold CacheManager.get CacheManager.put
    simp [lookupEntry, h]

/-- C6 witness: a cache constructed with TTL 0 and then written still reports
absent. -/
theorem C6_ttl_zero_disables_witness :
    (⟨0, []⟩ : CacheManager Nat Nat).get 0 4 = none ∧
    ∀ t v, ((⟨0, []⟩ : CacheManager Nat Nat).put t 4 v).get 0 4 = none :=
  C6_ttl_zero_disables ⟨0, []⟩ rfl 0 4

/-- C8: last-writer-wins — `put(k, v1)` then `put(k, v2)` leaves exactly the
entry for `v2` at key `k`, stamped with the time of the second put, and every
other key is untouched. -/
theorem C8_last_writer_wins {κ ν : Type} [DecidableEq κ]
    (c : CacheManager κ ν) (k : κ) (v1 v2 : ν) (t1 t2 : Nat) :
    lookupEntry ((c.put t1 k v1).put t2 k v2).store k = some ⟨v2, t2⟩ ∧
    ((c.put t1 k v1).put t2 k v2).ttl = c.ttl ∧
    ∀ k', k' ≠ k →
      lookupEntry ((c.put t1 k v1).put t2 k v2).store k' =
        lookupEntry c.store k' := by
  refine ⟨by simp [CacheManager.put, lookupEntry], rfl, ?_⟩
  intro k' hk
  simp only [CacheManager.put, lookupEntry, if_neg (Ne.symm hk)]
  rw [lookupEntry_eraseKey_ne _ _ _ hk, lookupEntry,
    if_neg (fun he => hk he.symm), lookupEntry_eraseKey_ne _ _ _ hk]

/-- C8 witness: writing 1 then 2 at key 9 leaves the entry 2 at time 6 and
key 8 untouched. -/
theorem C8_last_writer_wins_witness :
    lookupEntry (((⟨10, [(8, ⟨0, 0⟩)]⟩ : CacheManager Nat Nat).put 5 9 1).put
      6 9 2).store 9 = some ⟨2, 6⟩ ∧
    lookupEntry (((⟨10, [(8, ⟨0, 0⟩)]⟩ : CacheManager Nat Nat).put 5 9 1).put
      6 9 2).store 8 = some ⟨0, 0⟩ :=
  ⟨(C8_last_writer_wins ⟨10, [(8, ⟨0, 0⟩)]⟩ 9 1 2 5 6).1,
   by rw [(C8_last_writer_wins ⟨10, [(8, ⟨0, 0⟩)]⟩ 9 1 2 5 6).2.2 8
       (by decide)]; rfl⟩

/-- Modelled from the spec: `RemoteFleetAccess` (§4.2, from the missing module
`remote`): the simplest possible producer — deterministic success, or a
defined failure mode it can be configured to exhibit.  The behaviour functions
give the result of the n-th call (the failure-injection knob of §6); `calls`
is the call counter of the test double (§8). -/
structure RemoteFleetAccess where
  fleetBehavior : Nat → Except RemoteFailure Fleet
  carBehavior : Nat → Nat → Except RemoteFailure Car
  calls : Nat

/-- Modelled from the spec: one remote round trip for the whole fleet (§4.2);
it consumes one call of the counter. -/
def RemoteFleetAccess.fetchFleet (r : RemoteFleetAccess) :
    Except RemoteFailure Fleet × RemoteFleetAccess :=
  (r.fleetBehavior r.calls, { r with calls := r.calls + 1 })

/-- Modelled from the spec: one remote round trip for a single car (§4.2). -/
def RemoteFleetAccess.fetchCar (r : RemoteFleetAccess) (id : Nat) :
    Except RemoteFailure Car × RemoteFleetAccess :=
  (r.carBehavior r.calls id, { r with calls := r.calls + 1 })

/-- Modelled from the spec: the outcome field of a telemetry record (§3:
hit/miss/error). -/
inductive Outcome where
  | hit
  | miss
  | error (e : FleetError)
deriving DecidableEq, Repr

/-- Modelled from the spec: `TelemetryRecord` (§3): an immutable, timestamped
description of one access. -/
structure TelemetryRecord where
  resource : Key
  outcome : Outcome
  time : Nat
deriving DecidableEq, Repr

/-- Modelled from the spec: `TelemetryLogger` (§4.5, from the missing module
`telemetry`): appends records to its sink; a failed sink write is silently
dropped and never fails the calling operation.  `sinkFails` says whether the
n-th sink write fails; `writes` counts attempted writes. -/
structure TelemetryLogger where
  sinkFails : Nat → Bool
  writes : Nat
  records : List TelemetryRecord

/-- Modelled from the spec: `record(TelemetryRecord)` (§4.5, §6): append-only;
on sink failure the record is dropped, no error is ever returned. -/
def TelemetryLogger.record (tl : TelemetryLogger) (r : TelemetryRecord) :
    TelemetryLogger :=
  if tl.sinkFails tl.writes then
    { tl with writes := tl.writes + 1 }
  else
    { tl with writes := tl.writes + 1, records := r :: tl.records }

/-- Modelled from the spec: `FleetProxy` (§4.4, from the missing module
`proxy`): composes Cache Manager + Remote Fleet Source + Telemetry Logger. -/
structure ProxyState where
  cache : CacheManager Key CachedValue
  remote : RemoteFleetAccess
  telemetry : TelemetryLogger

/-- Modelled from the spec: the `get_fleet()` algorithm of the Fleet Proxy
(§4.4): fresh cache entry → Hit record, return cached value, no remote call;
absent → remote fetch; on success store result, Miss record, return value; on
failure Error record, propagate the same kind.  A cached value of the wrong
shape is treated as absent (§7, the cache self-heals on corrupted entries). -/
def ProxyState.get_fleet (s : ProxyState) (now : Nat) :
    Except FleetError Fleet × ProxyState :=
  match s.cache.get now Key.fleet with
  | some ⟨CachedValue.fleet f, _⟩ =>
      (Except.ok f,
       { s with telemetry := s.telemetry.record ⟨Key.fleet, Outcome.hit, now⟩ })
  | _ =>
      let fr := s.remote.fetchFleet
      match fr.1 with
      | Except.ok f =>
          (Except.ok f,
           { s with
              cache := s.cache.put now Key.fleet (CachedValue.fleet f),
              remote := fr.2,
              telemetry :=
                s.telemetry.record ⟨Key.fleet, Outcome.miss, now⟩ })
      | Except.error e =>
          (Except.error e.toFleetError,
           { s with
              remote := fr.2,
              telemetry :=
                s.telemetry.record
                  ⟨Key.fleet, Outcome.error e.toFleetError, now⟩ })

/-- Modelled from the spec: the `get_car(id)` algorithm of the Fleet Proxy,
symmetric to `get_fleet()` (§4.4). -/
def ProxyState.get_car (s : ProxyState) (now : Nat) (id : Nat) :
    Except FleetError Car × ProxyState :=
  match s.cache.get now (Key.car id) with
  | some ⟨CachedValue.car c, _⟩ =>
      (Except.ok c,
       { s with
          telemetry := s.telemetry.record ⟨Key.car id, Outcome.hit, now⟩ })
  | _ =>
      let cr := s.remote.fetchCar id
      match cr.1 with
      | Except.ok c =>
          (Except.ok c,
           { s with
              cache := s.cache.put now (Key.car id) (CachedValue.car c),
              remote := cr.2,
              telemetry :=
                s.telemetry.record ⟨Key.car id, Outcome.miss, now⟩ })
      | Except.error e =>
          (Except.error e.toFleetError,
           { s with
              remote := cr.2,
              telemetry :=
                s.telemetry.record
                  ⟨Key.car id, Outcome.error e.toFleetError, now⟩ })

/-- A remote test double whose fleet fetch always succeeds with a one-car
fleet (§8, test doubles with a call counter). -/
def okRemote : RemoteFleetAccess :=
  ⟨fun _ => Except.ok ⟨[⟨1, "a", 0⟩], 0⟩,
   fun _ _ => Except.error RemoteFailure.timeout, 0⟩

/-- A remote test double configured to fail every call with Timeout (§8). -/
def failRemote : RemoteFleetAccess :=
  ⟨fun _ => Except.error RemoteFailure.timeout,
   fun _ _ => Except.error RemoteFailure.timeout, 0⟩

/-- A telemetry logger whose sink never fails. -/
def quietLogger : TelemetryLogger := ⟨fun _ => false, 0, []⟩

/-- A proxy whose cache holds a fleet entry stored at time 0 with TTL 100. -/
def hitState : ProxyState :=
  ⟨⟨100, [(Key.fleet, ⟨CachedValue.fleet ⟨[], 0⟩, 0⟩)]⟩, failRemote,
   quietLogger⟩

/-- A proxy with an empty cache over the succeeding remote double. -/
def missOkState : ProxyState := ⟨⟨100, []⟩, okRemote, quietLogger⟩

/-- A proxy with an empty cache over the failing remote double. -/
def missFailState : ProxyState := ⟨⟨100, []⟩, failRemote, quietLogger⟩

theorem get_fleet_hit (s : ProxyState) (now t : Nat) (f : Fleet)
    (h : s.cache.get now Key.fleet = some ⟨CachedValue.fleet f, t⟩) :
    s.get_fleet now =
      (Except.ok f,
       { s with
          telemetry := s.telemetry.record ⟨Key.fleet, Outcome.hit, now⟩ }) := by
  simp only [ProxyState.get_fleet, h]

theorem get_fleet_miss_ok (s : ProxyState) (now : Nat) (f : Fleet)
    (hmiss : s.cache.get now Key.fleet = none)
    (hok : s.remote.fleetBehavior s.remote.calls = Except.ok f) :
    s.get_fleet now =
      (Except.ok f,
       { s with
          cache := s.cache.put now Key.fleet (CachedValue.fleet f),
          remote := { s.remote with calls := s.remote.calls + 1 },
          telemetry :=
            s.telemetry.record ⟨Key.fleet, Outcome.miss, now⟩ }) := by
  simp only [ProxyState.get_fleet, hmiss, RemoteFleetAccess.fetchFleet, hok]

/-- C3: hit suppresses remote call — with a fresh cached fleet, `get_fleet`
returns the cached value, leaves the remote source (its call counter
included) and the cache untouched, and emits a Hit telemetry record. -/
theorem C3_hit_suppresses_remote (s : ProxyState) (now t : Nat) (f : Fleet)
    (h : s.cache.get now Key.fleet = some ⟨CachedValue.fleet f, t⟩) :
    (s.get_fleet now).1 = Except.ok f ∧
    (s.get_fleet now).2.remote = s.remote ∧
    (s.get_fleet now).2.cache = s.cache ∧
    (s.get_fleet now).2.telemetry =
      s.telemetry.record ⟨Key.fleet, Outcome.hit, now⟩ := by
  have h1 := get_fleet_hit s now t f h
  exact ⟨by rw [h1], by rw [h1], by rw [h1], by rw [h1]⟩

/-- C3 witness: a proxy with a fresh fleet entry in its cache answers from
the cache, the remote double and the cache are untouched, and a Hit record is
emitted. -/
theorem C3_hit_suppresses_remote_witness :
    (hitState.get_fleet 10).1 = Except.ok ⟨[], 0⟩ ∧
    (hitState.get_fleet 10).2.remote = hitState.remote ∧
    (hitState.get_fleet 10).2.cache = hitState.cache ∧
    (hitState.get_fleet 10).2.telemetry =
      hitState.telemetry.record ⟨Key.fleet, Outcome.hit, 10⟩ :=
  C3_hit_suppresses_remote hitState 10 0 ⟨[], 0⟩ (by decide)

/-- C4: miss populates cache — on a cache miss with a succeeding remote,
`get_fleet` performs exactly one remote call and returns the fetched fleet,
and a second `get_fleet` within the TTL is a hit: it returns the same fleet
and performs no further remote call. -/
theorem C4_miss_populates (s : ProxyState) (now now' : Nat) (f : Fleet)
    (hmiss : s.cache.get now Key.fleet = none)
    (hok : s.remote.fleetBehavior s.remote.calls = Except.ok f)
    (hfresh : now' - now < s.cache.ttl) :
    (s.get_fleet now).1 = Except.ok f ∧
    (s.get_fleet now).2.remote.calls = s.remote.calls + 1 ∧
    (((s.get_fleet now).2).get_fleet now').1 = Except.ok f ∧
    (((s.get_fleet now).2).get_fleet now').2.remote.calls =
      s.remote.calls + 1 := by
  have h1 := get_fleet_miss_ok s now f hmiss hok
  have h2 : ((s.get_fleet now).2).cache.get now' Key.fleet =
      some ⟨CachedValue.fleet f, now⟩ := by
    rw [h1]
    exact get_put_same s.cache Key.fleet (CachedValue.fleet f) now now' hfresh
  have h3 := get_fleet_hit ((s.get_fleet now).2) now' now f h2
  refine ⟨by rw [h1], by rw [h1], by rw [h3], ?_⟩
  rw [h3]
  show ((s.get_fleet now).2).remote.calls = s.remote.calls + 1
  rw [h1]

/-- C4 witness: empty cache, remote yielding a one-car fleet: the first call
fetches (exactly one remote call), the second call 50 time units later with
TTL 100 hits without a further remote call. -/
theorem C4_miss_populates_witness :
    (missOkState.get_fleet 0).1 = Except.ok ⟨[⟨1, "a", 0⟩], 0⟩ ∧
    (missOkState.get_fleet 0).2.remote.calls = missOkState.remote.calls + 1 ∧
    (((missOkState.get_fleet 0).2).get_fleet 50).1 =
      Except.ok ⟨[⟨1, "a", 0⟩], 0⟩ ∧
    (((missOkState.get_fleet 0).2).get_fleet 50).2.remote.calls =
      missOkState.remote.calls + 1 :=
  C4_miss_populates missOkState 0 50 ⟨[⟨1, "a", 0⟩], 0⟩ rfl rfl (by decide)

/-- C5: error propagation with cache atomicity — on a cache miss with a
failing remote, `get_fleet` surfaces the same error kind unchanged and leaves
the cache unmodified. -/
theorem C5_error_propagation (s : ProxyState) (now : Nat) (e : RemoteFailure)
    (hmiss : s.cache.get now Key.fleet = none)
    (herr : s.remote.fleetBehavior s.remote.calls = Except.error e) :
    (s.get_fleet now).1 = Except.error e.toFleetError ∧
    (s.get_fleet now).2.cache = s.cache := by
  have h1 : s.get_fleet now =
      (Except.error e.toFleetError,
       { s with
          remote := { s.remote with calls := s.remote.calls + 1 },
          telemetry :=
            s.telemetry.record
              ⟨Key.fleet, Outcome.error e.toFleetError, now⟩ }) := by
    simp only [ProxyState.get_fleet, hmiss, RemoteFleetAccess.fetchFleet, herr]
  exact ⟨by rw [h1], by rw [h1]⟩

/-- C5 witness: empty cache, remote configured to fail with Timeout:
`get_fleet` returns `Timeout` and the cache stays empty. -/
theorem C5_error_propagation_witness :
    (missFailState.get_fleet 0).1 = Except.error FleetError.timeout ∧
    (missFailState.get_fleet 0).2.cache = missFailState.cache :=
  C5_error_propagation missFailState 0 RemoteFailure.timeout rfl rfl

/-- C7: invalid TTL fails fast — construction with a missing or negative TTL
yields `ConfigError`, a nonnegative TTL succeeds, and no proxy call ever
yields `ConfigError` at call time. -/
theorem C7_config_error_at_construction :
    CacheManager.new Key CachedValue none =
      Except.error FleetError.configError ∧
    (∀ t : Int, t < 0 →
      CacheManager.new Key CachedValue (some t) =
        Except.error FleetError.configError) ∧
    (∀ t : Int, 0 ≤ t →
      CacheManager.new Key CachedValue (some t) = Except.ok ⟨t.toNat, []⟩) ∧
    (∀ (s : ProxyState) (now : Nat),
      (s.get_fleet now).1 ≠ Except.error FleetError.configError) ∧
    (∀ (s : ProxyState) (now id : Nat),
      (s.get_car now id).1 ≠ Except.error FleetError.configError) := by
  refine ⟨rfl, ?_, ?_, ?_, ?_⟩
  · intro t ht
    simp [CacheManager.new, ht]
  · intro t ht
    simp [CacheManager.new, not_lt.mpr ht]
  · intro s now
    unfold ProxyState.get_fleet
    rcases hc : s.cache.get now Key.fleet with - | ⟨v, t⟩
    · rcases hr : s.remote.fetchFleet.1 with e | f
      · simp [hr]
        cases e <;> simp [RemoteFailure.toFleetError]
      · simp [hr]
    · rcases v with f | c
      · simp
      · rcases hr : s.remote.fetchFleet.1 with e | f
        · simp [hr]
          cases e <;> simp [RemoteFailure.toFleetError]
        · simp [hr]
  · intro s now id
    unfold ProxyState.get_car
    rcases hc : s.cache.get now (Key.car id) with - | ⟨v, t⟩
    · rcases hr : (s.remote.fetchCar id).1 with e | c
      · simp [hr]
        cases e <;> simp [RemoteFailure.toFleetError]
      · simp [hr]
    · rcases v with f | c
      · rcases hr : (s.remote.fetchCar id).1 with e | c
        · simp [hr]
          cases e <;> simp [RemoteFailure.toFleetError]
        · simp [hr]
      · simp

/-- C7 witness: TTL −5 is rejected with `ConfigError`, TTL 100 is accepted,
and a concrete proxy call does not yield `ConfigError`. -/
theorem C7_config_error_at_construction_witness :
    CacheManager.new Key CachedValue (some (-5)) =
      Except.error FleetError.configError ∧
    CacheManager.new Key CachedValue (some 100) =
      Except.ok ⟨(100 : Int).toNat, []⟩ ∧
    (missFailState.get_fleet 0).1 ≠ Except.error FleetError.configError :=
  ⟨C7_config_error_at_construction.2.1 (-5) (by decide),
   C7_config_error_at_construction.2.2.1 100 (by decide),
   C7_config_error_at_construction.2.2.2.1 missFailState 0⟩

/-- C9: telemetry is best-effort — the proxy's result and its cache and
remote components are identical whatever the sink-failure pattern, the write
count and prior records of the telemetry logger; a sink failure is never
surfaced through the result. -/
theorem C9_telemetry_best_effort (cm : CacheManager Key CachedValue)
    (r : RemoteFleetAccess) (g1 g2 : Nat → Bool) (w1 w2 : Nat)
    (l1 l2 : List TelemetryRecord) (now id : Nat) :
    ((ProxyState.get_fleet ⟨cm, r, ⟨g1, w1, l1⟩⟩ now).1 =
       (ProxyState.get_fleet ⟨cm, r, ⟨g2, w2, l2⟩⟩ now).1 ∧
     (ProxyState.get_fleet ⟨cm, r, ⟨g1, w1, l1⟩⟩ now).2.cache =
       (ProxyState.get_fleet ⟨cm, r, ⟨g2, w2, l2⟩⟩ now).2.cache ∧
     (ProxyState.get_fleet ⟨cm, r, ⟨g1, w1, l1⟩⟩ now).2.remote =
       (ProxyState.get_fleet ⟨cm, r, ⟨g2, w2, l2⟩⟩ now).2.remote) ∧
    ((ProxyState.get_car ⟨cm, r, ⟨g1, w1, l1⟩⟩ now id).1 =
       (ProxyState.get_car ⟨cm, r, ⟨g2, w2, l2⟩⟩ now id).1 ∧
     (ProxyState.get_car ⟨cm, r, ⟨g1, w1, l1⟩⟩ now id).2.cache =
       (ProxyState.get_car ⟨cm, r, ⟨g2, w2, l2⟩⟩ now id).2.cache ∧
     (ProxyState.get_car ⟨cm, r, ⟨g1, w1, l1⟩⟩ now id).2.remote =
       (ProxyState.get_car ⟨cm, r, ⟨g2, w2, l2⟩⟩ now id).2.remote) := by
  constructor
  · unfold ProxyState.get_fleet
    rcases hc : cm.get now Key.fleet with - | ⟨v, t⟩
    · rcases hr : (RemoteFleetAccess.fetchFleet r).1 with f | e <;>
        simp [hr]
    · rcases v with f | c
      · exact ⟨rfl, rfl, rfl⟩
      · rcases hr : (RemoteFleetAccess.fetchFleet r).1 with f | e <;>
          simp [hr]
  · unfold ProxyState.get_car
    rcases hc : cm.get now (Key.car id) with - | ⟨v, t⟩
    · rcases hr : (RemoteFleetAccess.fetchCar r id).1 with c | e <;>
        simp [hr]
    · rcases v with f | c
      · rcases hr : (RemoteFleetAccess.fetchCar r id).1 with c | e <;>
          simp [hr]
      · exact ⟨rfl, rfl, rfl⟩

end MobiRent
